import Mathlib

/-!
Verification development for the a2a-python repository.

The first part embeds the Python library helpers that
`a2a/server/apps/jsonrpc/starlette_app.py` relies on
(`urllib.parse.urlparse` / `urlunparse`, `posixpath.join` /
`posixpath.normpath`, `str.strip`), then the module itself.
The second part models, from the specification, the components of the
repository whose sources are not included here (the wire translators,
the gRPC client helpers and the JSON-RPC dispatch layer), as the
specification describes them.
-/

namespace PyLib

/-- Model of CPython WHATWG C0-control-or-space stripping applied by
`urllib.parse.urlsplit` to the left end of its input. -/
def lstripC0 (s : String) : String :=
  String.mk (s.toList.dropWhile (fun c => c.val ≤ 0x20))

/-- Model of the removal of the unsafe bytes tab, CR and LF performed by
`urllib.parse.urlsplit`. -/
def removeUnsafeBytes (s : String) : String :=
  String.mk (s.toList.filter (fun c => c ≠ '\t' ∧ c ≠ '\r' ∧ c ≠ '\n'))

/-- Index of the first occurrence of a character, like Python `str.find`
restricted to a single character needle (`none` plays the role of `-1`). -/
def findChar (s : String) (c : Char) : Option Nat :=
  s.toList.findIdx? (· = c)

/-- Index of the last occurrence of a character, like Python `str.rfind`. -/
def rfindChar (s : String) (c : Char) : Option Nat :=
  match (s.toList.reverse.findIdx? (· = c)) with
  | some i => some (s.toList.length - 1 - i)
  | none => none

/-- Split at the first occurrence of a character, like
`str.split(c, 1)` when `c` occurs; `none` when it does not. -/
def splitOnceChar (s : String) (c : Char) : Option (String × String) :=
  match s.toList.findIdx? (· = c) with
  | some i =>
      some (String.mk (s.toList.take i), String.mk (s.toList.drop (i + 1)))
  | none => none

/-- Characters allowed in a URL scheme by `urllib.parse`
(letters, digits, plus, minus, dot). -/
def isSchemeChar (c : Char) : Bool :=
  (('a' ≤ c ∧ c ≤ 'z') ∨ ('A' ≤ c ∧ c ≤ 'Z') ∨ ('0' ≤ c ∧ c ≤ '9')
    ∨ c = '+' ∨ c = '-' ∨ c = '.')

/-- Result record of `urllib.parse.urlparse`: scheme, netloc, path,
params, query, fragment. -/
structure ParseResult where
  scheme : String
  netloc : String
  path : String
  params : String
  query : String
  fragment : String
deriving Repr, DecidableEq

/-- Model of `urllib.parse._splitnetloc`: the netloc runs from position 2
up to the first of `/`, `?` or `#`. -/
def splitnetloc (url : String) : String × String :=
  let cs := url.toList.drop 2
  match cs.findIdx? (fun c => c = '/' ∨ c = '?' ∨ c = '#') with
  | some i => (String.mk (cs.take i), String.mk (cs.drop i))
  | none => (String.mk cs, "")

/-- Model of `urllib.parse.urlsplit` (default `allow_fragments=True`).
The bracketed-IPv6-host and netloc validation error paths, which raise
for hosts this repository never produces, are not modelled. -/
def urlsplit (url0 : String) : ParseResult :=
  let url := removeUnsafeBytes (lstripC0 url0)
  let (scheme, url) :=
    match findChar url ':' with
    | some i =>
        if 0 < i ∧ (url.toList.headD ' ').isAlpha
            ∧ (url.toList.take i).all isSchemeChar then
          (String.mk ((url.toList.take i).map Char.toLower),
           String.mk (url.toList.drop (i + 1)))
        else ("", url)
    | none => ("", url)
  let (netloc, url) :=
    if url.toList.take 2 = ['/', '/'] then splitnetloc url else ("", url)
  let (url, fragment) :=
    match splitOnceChar url '#' with
    | some p => p
    | none => (url, "")
  let (url, query) :=
    match splitOnceChar url '?' with
    | some p => p
    | none => (url, "")
  ⟨scheme, netloc, url, "", query, fragment⟩

/-- Model of `urllib.parse._splitparams`. -/
def splitparams (url : String) : String × String :=
  let cs := url.toList
  let i? : Option Nat :=
    if cs.contains '/' then
      match rfindChar url '/' with
      | some j =>
          match ((cs.drop j).findIdx? (· = ';')) with
          | some k => some (j + k)
          | none => none
      | none => none
    else cs.findIdx? (· = ';')
  match i? with
  | some i => (String.mk (cs.take i), String.mk (cs.drop (i + 1)))
  | none => (url, "")

/-- Model of `urllib.parse.urlparse`: `urlsplit` plus the split of the
params component off the last path segment. -/
def urlparse (u : String) : ParseResult :=
  let r := urlsplit u
  if r.path.toList.contains ';' then
    let (p, params) := splitparams r.path
    { r with path := p, params := params }
  else r

/-- Model of `urllib.parse.urlunparse` composed with `urlunsplit`. -/
def urlunparse (r : ParseResult) : String :=
  let url := if r.params ≠ "" then r.path ++ ";" ++ r.params else r.path
  let url :=
    if r.netloc ≠ "" ∨ url.startsWith "//" then
      let url := if url ≠ "" ∧ ¬ url.startsWith "/" then "/" ++ url else url
      "//" ++ r.netloc ++ url
    else url
  let url := if r.scheme ≠ "" then r.scheme ++ ":" ++ url else url
  let url := if r.query ≠ "" then url ++ "?" ++ r.query else url
  if r.fragment ≠ "" then url ++ "#" ++ r.fragment else url

/-- Split of a character list at every occurrence of a separator
character, like Python `str.split` with a one-character separator. -/
def pySplitChar (sep : Char) : List Char → List (List Char)
  | [] => [[]]
  | x :: xs =>
      if x = sep then [] :: pySplitChar sep xs
      else
        match pySplitChar sep xs with
        | h :: t => (x :: h) :: t
        | [] => [[x]]

/-- Model of Python `str.split` with a one-character separator. -/
def pySplit (s : String) (sep : Char) : List String :=
  (pySplitChar sep s.toList).map String.mk

/-- Model of Python `str.strip` with a single strip character. -/
def pyStrip (s : String) (c : Char) : String :=
  String.mk (((s.toList.dropWhile (· = c)).reverse.dropWhile (· = c)).reverse)

/-- Model of `posixpath.join`. -/
def posixJoin (a : String) (ps : List String) : String :=
  ps.foldl
    (fun path b =>
      if b.startsWith "/" then b
      else if path = "" ∨ path.endsWith "/" then path ++ b
      else path ++ "/" ++ b)
    a

/-- Model of `posixpath.normpath`. -/
def normpath (path : String) : String :=
  if path = "" then "."
  else
    let initialSlashes : Nat :=
      if path.startsWith "/" then
        if path.startsWith "//" ∧ ¬ path.startsWith "///" then 2 else 1
      else 0
    let comps := path.splitOn "/"
    let newComps := comps.foldl
      (fun acc comp =>
        if comp = "" ∨ comp = "." then acc
        else if comp ≠ ".." ∨ (initialSlashes = 0 ∧ acc = [])
            ∨ acc.getLast? = some ".." then
          acc ++ [comp]
        else if acc ≠ [] then acc.dropLast
        else acc)
      []
    let res :=
      String.mk (List.replicate initialSlashes '/')
        ++ String.intercalate "/" newComps
    if res = "" then "." else res

end PyLib

namespace A2A

open PyLib

/-- Modelled from the spec: the well-known discovery document path
(`a2a.utils.constants` is not among the provided sources; section 6 of
the specification fixes the `/.well-known/<card>` convention and the
tests pin the concrete file names). -/
def AGENT_CARD_WELL_KNOWN_PATH : String := "/.well-known/agent-card.json"

/-- Modelled from the spec: the deprecated alias path for the discovery
document (`a2a.utils.constants` is not among the provided sources). -/
def PREV_AGENT_CARD_WELL_KNOWN_PATH : String := "/.well-known/agent.json"

/-- Modelled from the spec: the default JSON-RPC endpoint path
(`a2a.utils.constants` is not among the provided sources; the tests POST
to the root path). -/
def DEFAULT_RPC_URL : String := "/"

/-- Modelled from the spec: the authenticated extended card path
(`a2a.utils.constants` is not among the provided sources; the tests GET
this literal path). -/
def EXTENDED_AGENT_CARD_PATH : String := "/agent/authenticatedExtendedCard"

/-- The fields of `a2a.types.AgentCard` that
`a2a/server/apps/jsonrpc/starlette_app.py` reads. -/
structure AgentCard where
  name : String
  url : String
  supports_authenticated_extended_card : Bool
deriving Repr, DecidableEq

/-- Tags for the bound endpoint methods of `JSONRPCApplication` that the
route lists reference. -/
inductive HandlerTag where
  | handleRequests
  | handleGetAgentCard
  | handleGetAuthenticatedExtendedAgentCard
  | handleGetApiCatalog
deriving Repr, DecidableEq

/-- Model of a `starlette.routing.Route`: path, allowed methods, bound
endpoint and route name. -/
structure Route where
  path : String
  methods : List String
  handler : HandlerTag
  name : String
deriving Repr, DecidableEq

/-- Model of a `starlette.routing.Mount`: a path with a nested route
list. -/
structure Mount where
  path : String
  routes : List Route
deriving Repr, DecidableEq

/-- Embedding of `A2AStarletteApplication.routes`: the POST RPC route
and the GET agent-card route, plus the authenticated extended card route
exactly when the card flag is set. -/
def a2aStarletteApplicationRoutes (agent_card : AgentCard)
    (agent_card_url : String := AGENT_CARD_WELL_KNOWN_PATH)
    (rpc_url : String := DEFAULT_RPC_URL)
    (extended_agent_card_url : String := EXTENDED_AGENT_CARD_PATH) :
    List Route :=
  let app_routes : List Route :=
    [⟨rpc_url, ["POST"], .handleRequests, "a2a_handler"⟩,
     ⟨agent_card_url, ["GET"], .handleGetAgentCard, "agent_card"⟩]
  if agent_card.supports_authenticated_extended_card then
    app_routes
      ++ [⟨extended_agent_card_url, ["GET"],
           .handleGetAuthenticatedExtendedAgentCard,
           "authenticated_extended_agent_card"⟩]
  else app_routes

/-- The parameter names declared by `A2AStarletteApplication.__init__`
in the source (`self` apart): the signature has no `**kwargs`. -/
def a2aStarletteApplicationInitParams : List String :=
  ["agent_card", "http_handler", "extended_agent_card", "context_builder"]

/-- Model of CPython keyword-argument binding for
`A2AStarletteApplication.__init__`: a call placing a keyword that is not
a declared parameter raises `TypeError` before the body runs. -/
def a2aStarletteApplicationInitCall (kwargs : List String) :
    Except String Unit :=
  match kwargs.find? (fun k => ¬ a2aStarletteApplicationInitParams.contains k) with
  | some k =>
      .error ("TypeError: __init__() got an unexpected keyword argument "
        ++ k)
  | none => .ok ()

/-- Embedding of the `StarletteRouteConfig` dataclass with its default
paths. -/
structure StarletteRouteConfig where
  agent_card_path : String := "/agent.json"
  extended_agent_card_path : String := "/agent/authenticatedExtendedCard"
  rpc_path : String := "/"
deriving Repr, DecidableEq

/-- The state of a `StarletteRouteBuilder` that its `build` method and
`StarletteBuilder.mount` read. -/
structure StarletteRouteBuilder where
  agent_card : AgentCard
  extended_agent_card : Option AgentCard := none
  config : StarletteRouteConfig := {}
deriving Repr, DecidableEq

/-- Embedding of `StarletteRouteBuilder.build`. -/
def StarletteRouteBuilder.build (b : StarletteRouteBuilder) : List Route :=
  let routes : List Route :=
    [⟨b.config.rpc_path, ["POST"], .handleRequests, "a2a_handler"⟩,
     ⟨b.config.agent_card_path, ["GET"], .handleGetAgentCard, "agent_card"⟩]
  if b.agent_card.supports_authenticated_extended_card then
    routes
      ++ [⟨b.config.extended_agent_card_path, ["GET"],
           .handleGetAuthenticatedExtendedAgentCard,
           "authenticated_extended_agent_card"⟩]
  else routes

/-- Embedding of the module function `_join_url`. -/
def joinUrl (base : String) (paths : List String) : String :=
  let parsed := urlparse base
  let clean_paths := paths.map (fun p => pyStrip p '/')
  let base_path := if parsed.path ≠ "/" then parsed.path else ""
  let base_path := pyStrip base_path '/'
  let joined_path := posixJoin base_path clean_paths
  let final_path := if joined_path ≠ "" then "/" ++ joined_path else "/"
  urlunparse { parsed with path := final_path }

/-- Embedding of the module function `_get_path_from_url`. -/
def getPathFromUrl (url : String) : String :=
  let path := (urlparse url).path
  if path ≠ "" then path else "/"

/-- Model of `a2a.types.AgentLinkTarget`. -/
structure AgentLinkTarget where
  href : String
deriving Repr, DecidableEq

/-- Model of `a2a.types.AgentLinkContext`. -/
structure AgentLinkContext where
  anchor : String
  describedby : List AgentLinkTarget
deriving Repr, DecidableEq

/-- Model of `a2a.types.AgentCatalog`. -/
structure AgentCatalog where
  linkset : List AgentLinkContext
deriving Repr, DecidableEq

/-- The mutable state of a `StarletteBuilder` instance: the mounted
route groups and the collected catalog links. -/
structure StarletteBuilderState where
  mounts : List Mount := []
  catalog_links : List AgentLinkContext := []
deriving Repr, DecidableEq

/-- Embedding of `StarletteBuilder._handle_get_api_catalog`: the served
catalog is built from the collected links. -/
def handleGetApiCatalog (st : StarletteBuilderState) : AgentCatalog :=
  ⟨st.catalog_links⟩

/-- Embedding of `StarletteBuilder.mount`. Both `raise ValueError`
statements of the source run before any mutation of `_mounts` or
`_catalog_links`, so the error case carries no successor state. -/
def StarletteBuilderMount (st : StarletteBuilderState)
    (route_builder : StarletteRouteBuilder) :
    Except String StarletteBuilderState :=
  let path := getPathFromUrl route_builder.agent_card.url
  if st.mounts.any (fun m => normpath m.path = normpath path) then
    .error ("A mount for path \"" ++ path ++ "\" already exists.")
  else if route_builder.extended_agent_card.any
      (fun ec => route_builder.agent_card.url ≠ ec.url) then
    .error ("agent_card.url and extended_agent_card.url must be the same "
      ++ "if extended_agent_card is provided")
  else
    let routes := route_builder.build
    let anchor :=
      joinUrl route_builder.agent_card.url [route_builder.config.rpc_path]
    let describedby :=
      [AgentLinkTarget.mk
        (joinUrl route_builder.agent_card.url
          [route_builder.config.agent_card_path])]
    let describedby :=
      describedby ++
        (match route_builder.extended_agent_card with
         | some ec =>
             if route_builder.agent_card.supports_authenticated_extended_card
             then
               [AgentLinkTarget.mk
                 (joinUrl ec.url
                   [route_builder.config.extended_agent_card_path])]
             else []
         | none => [])
    .ok ⟨st.mounts ++ [⟨path, routes⟩],
         st.catalog_links ++ [⟨anchor, describedby⟩]⟩

/-- Folding `StarletteBuilder.mount` over a list of route builders,
starting from a given builder state. -/
def mountAll (st : StarletteBuilderState)
    (rbs : List StarletteRouteBuilder) :
    Except String StarletteBuilderState :=
  match rbs with
  | [] => .ok st
  | rb :: rest =>
      match StarletteBuilderMount st rb with
      | .ok st' => mountAll st' rest
      | .error e => .error e

/-- Embedding of `StarletteBuilder.build`: the application route table
is the mount list followed by the api-catalog route. -/
def starletteBuilderCatalogRoute : Route :=
  ⟨"/.well-known/api-catalog", ["GET"], .handleGetApiCatalog, "api_catalog"⟩

/-- Model of Starlette route matching on a flat route list, reporting
the HTTP status class: 200 when a route matches path and method, 405
when only the path matches, 404 otherwise. -/
def matchRequest (method path : String) (routes : List Route) : Nat :=
  if routes.any (fun r => r.path = path ∧ r.methods.contains method) then 200
  else if routes.any (fun r => r.path = path) then 405
  else 404

end A2A

namespace Spec

/-!
Components modelled from the specification. The sources of the wire
translators (`a2a/utils/proto_utils.py` and the pydantic JSON layer in
`a2a/types.py`), of the gRPC client (`a2a/client/grpc_client.py`) and
of the JSON-RPC dispatch layer (`a2a/server/apps/jsonrpc/jsonrpc_app.py`
and the request handlers) are not included in the provided sources; the
definitions below follow sections 3, 4.3, 4.4, 4.5 and 7 of the
specification.
-/

/-- Modelled from the spec: the domain model treats metadata as an
opaque ordered mapping of string keys to opaque values. -/
abbrev Metadata := List (String × String)

/-- Modelled from the spec: the role of a Message is user or agent. -/
inductive Role where
  | user
  | agent
deriving Repr, DecidableEq

/-- Modelled from the spec: a Part is a tagged union of text, file and
data-blob with exactly one variant populated. -/
inductive PartVariant where
  | text (content : String)
  | file (uri : String)
  | dataBlob (payload : Metadata)
deriving Repr, DecidableEq

/-- Modelled from the spec: a Part carries its variant and an optional
metadata mapping. -/
structure Part where
  variant : PartVariant
  metadata : Option Metadata := none
deriving Repr, DecidableEq

/-- Modelled from the spec: a Message has a role, an ordered sequence of
Parts, a message id and optional task id and context id links. -/
structure Message where
  role : Role
  parts : List Part
  message_id : String
  task_id : Option String := none
  context_id : Option String := none
deriving Repr, DecidableEq

/-- Modelled from the spec: the closed set of task lifecycle states. -/
inductive TaskState where
  | submitted
  | working
  | input_required
  | completed
  | canceled
  | failed
  | rejected
  | auth_required
  | unknown
deriving Repr, DecidableEq

/-- Modelled from the spec: a TaskStatus is a state with an optional
attached Message and an optional timestamp. -/
structure TaskStatus where
  state : TaskState
  message : Option Message := none
  timestamp : Option String := none
deriving Repr, DecidableEq

/-- Modelled from the spec: an Artifact has an id, a name, an ordered
sequence of Parts and optional metadata and extension lists. -/
structure Artifact where
  artifact_id : String
  name : String
  parts : List Part
  metadata : Option Metadata := none
  extensions : Option (List String) := none
deriving Repr, DecidableEq

/-- Modelled from the spec: a Task has an id, a context id, a current
TaskStatus, an optional ordered history of prior messages and a mapping
of artifact id to Artifact. -/
structure Task where
  id : String
  context_id : String
  status : TaskStatus
  history : Option (List Message) := none
  artifacts : List (String × Artifact) := []
deriving Repr, DecidableEq

/-- Modelled from the spec: a status update event references a task id
and context id and carries a TaskStatus plus a final flag. -/
structure TaskStatusUpdateEvent where
  task_id : String
  context_id : String
  status : TaskStatus
  final : Bool
deriving Repr, DecidableEq

/-- Modelled from the spec: an artifact update event references a task
id and context id and carries an Artifact delta with append and
last-chunk flags, plus a final flag. -/
structure TaskArtifactUpdateEvent where
  task_id : String
  context_id : String
  artifact : Artifact
  append : Bool
  last_chunk : Bool
  final : Bool
deriving Repr, DecidableEq

/-- Modelled from the spec: the optional authentication descriptor of a
push notification config, with a set of scheme names and an opaque
credentials string. -/
structure PushNotificationAuthenticationInfo where
  schemes : List String
  credentials : String
deriving Repr, DecidableEq

/-- Modelled from the spec: a PushNotificationConfig has an id, a target
URL, an opaque token and an optional authentication descriptor. -/
structure PushNotificationConfig where
  id : String
  url : String
  token : String
  authentication : Option PushNotificationAuthenticationInfo := none
deriving Repr, DecidableEq

/-- A JSON document, the wire representation handled by the JSON
translator. -/
inductive JsonValue where
  | null
  | bool (b : Bool)
  | num (n : Int)
  | str (s : String)
  | arr (xs : List JsonValue)
  | obj (fields : List (String × JsonValue))
deriving Repr

/-- Key lookup in a JSON object field list (first occurrence wins). -/
def lookupField (k : String) : List (String × JsonValue) → Option JsonValue
  | [] => none
  | (k', v) :: rest => if k' = k then some v else lookupField k rest

/-- An optional field of a JSON object: present values produce one
entry, absent values produce none (the field is omitted on the wire). -/
def optField (k : String) : Option JsonValue → List (String × JsonValue)
  | some v => [(k, v)]
  | none => []

/-- Reads a JSON string. -/
def asStr : JsonValue → Option String
  | .str s => some s
  | _ => none

/-- Reads a JSON boolean. -/
def asBool : JsonValue → Option Bool
  | .bool b => some b
  | _ => none

/-- Reads a JSON array. -/
def asArr : JsonValue → Option (List JsonValue)
  | .arr xs => some xs
  | _ => none

/-- Decodes every element of a JSON array, failing when any element
fails. -/
def decodeList (dec : JsonValue → Option α) : List JsonValue → Option (List α)
  | [] => some []
  | x :: xs =>
      match dec x, decodeList dec xs with
      | some a, some ys => some (a :: ys)
      | _, _ => none

/-- Decodes an optional field: absent decodes to the default `none`,
present values must decode. -/
def decodeOptField (dec : JsonValue → Option α) (k : String)
    (fs : List (String × JsonValue)) : Option (Option α) :=
  match lookupField k fs with
  | none => some none
  | some v => (dec v).map some

/-- JSON encoding of a metadata mapping as an object of strings. -/
def encMetadata (m : Metadata) : JsonValue :=
  .obj (m.map (fun p => (p.1, .str p.2)))

/-- JSON decoding of a metadata mapping. -/
def decMetadataFields : List (String × JsonValue) → Option Metadata
  | [] => some []
  | (k, .str v) :: rest => (decMetadataFields rest).map (fun m => (k, v) :: m)
  | _ => none

/-- JSON decoding of a metadata object. -/
def decMetadata : JsonValue → Option Metadata
  | .obj fs => decMetadataFields fs
  | _ => none

/-- JSON encoding of a Role as its wire tag. -/
def encRole (r : Role) : JsonValue :=
  match r with
  | .user => .str "user"
  | .agent => .str "agent"

/-- JSON decoding of a Role; an unrecognized tag fails closed, the
domain type having no catch-all variant. -/
def decRole : JsonValue → Option Role
  | .str "user" => some .user
  | .str "agent" => some .agent
  | _ => none

/-- JSON encoding of a TaskState as its wire tag. -/
def encTaskState (s : TaskState) : JsonValue :=
  match s with
  | .submitted => .str "submitted"
  | .working => .str "working"
  | .input_required => .str "input-required"
  | .completed => .str "completed"
  | .canceled => .str "canceled"
  | .failed => .str "failed"
  | .rejected => .str "rejected"
  | .auth_required => .str "auth-required"
  | .unknown => .str "unknown"

/-- JSON decoding of a TaskState; an unrecognized wire tag decodes to
the designated catch-all state `unknown`. -/
def decTaskState : JsonValue → Option TaskState
  | .str "submitted" => some .submitted
  | .str "working" => some .working
  | .str "input-required" => some .input_required
  | .str "completed" => some .completed
  | .str "canceled" => some .canceled
  | .str "failed" => some .failed
  | .str "rejected" => some .rejected
  | .str "auth-required" => some .auth_required
  | .str _ => some .unknown
  | _ => none

/-- JSON encoding of a Part: a kind tag, the variant payload and the
optional metadata (omitted when absent). -/
def encPart (p : Part) : JsonValue :=
  let base : List (String × JsonValue) :=
    match p.variant with
    | .text s => [("kind", .str "text"), ("text", .str s)]
    | .file u => [("kind", .str "file"), ("file", .str u)]
    | .dataBlob d => [("kind", .str "data"), ("data", encMetadata d)]
  .obj (base ++ optField "metadata" (p.metadata.map encMetadata))

/-- JSON decoding of a Part via its kind tag. -/
def decPart : JsonValue → Option Part
  | .obj fs =>
      match decodeOptField decMetadata "metadata" fs with
      | none => none
      | some md =>
          match lookupField "kind" fs with
          | some (.str "text") =>
              (lookupField "text" fs >>= asStr).map
                (fun s => { variant := .text s, metadata := md })
          | some (.str "file") =>
              (lookupField "file" fs >>= asStr).map
                (fun u => { variant := .file u, metadata := md })
          | some (.str "data") =>
              (lookupField "data" fs >>= decMetadata).map
                (fun d => { variant := .dataBlob d, metadata := md })
          | _ => none
  | _ => none

/-- JSON encoding of a Message; the optional task and context links are
omitted when absent. -/
def encMessage (m : Message) : JsonValue :=
  .obj ([("kind", .str "message"),
         ("role", encRole m.role),
         ("parts", .arr (m.parts.map encPart)),
         ("messageId", .str m.message_id)]
    ++ optField "taskId" (m.task_id.map .str)
    ++ optField "contextId" (m.context_id.map .str))

/-- JSON decoding of a Message. -/
def decMessage : JsonValue → Option Message
  | .obj fs =>
      match lookupField "role" fs >>= decRole,
          lookupField "parts" fs >>= asArr,
          lookupField "messageId" fs >>= asStr,
          decodeOptField asStr "taskId" fs,
          decodeOptField asStr "contextId" fs with
      | some role, some parts, some mid, some tid, some cid =>
          (decodeList decPart parts).map
            (fun ps => ⟨role, ps, mid, tid, cid⟩)
      | _, _, _, _, _ => none
  | _ => none

/-- JSON encoding of a TaskStatus; the optional message and timestamp
are omitted when absent. -/
def encTaskStatus (s : TaskStatus) : JsonValue :=
  .obj ([("state", encTaskState s.state)]
    ++ optField "message" (s.message.map encMessage)
    ++ optField "timestamp" (s.timestamp.map .str))

/-- JSON decoding of a TaskStatus. -/
def decTaskStatus : JsonValue → Option TaskStatus
  | .obj fs =>
      match lookupField "state" fs >>= decTaskState,
          decodeOptField decMessage "message" fs,
          decodeOptField asStr "timestamp" fs with
      | some st, some msg, some ts => some ⟨st, msg, ts⟩
      | _, _, _ => none
  | _ => none

/-- JSON encoding of an Artifact. -/
def encArtifact (a : Artifact) : JsonValue :=
  .obj ([("artifactId", .str a.artifact_id),
         ("name", .str a.name),
         ("parts", .arr (a.parts.map encPart))]
    ++ optField "metadata" (a.metadata.map encMetadata)
    ++ optField "extensions"
        (a.extensions.map (fun es => .arr (es.map .str))))

/-- JSON decoding of an Artifact. -/
def decArtifact : JsonValue → Option Artifact
  | .obj fs =>
      match lookupField "artifactId" fs >>= asStr,
          lookupField "name" fs >>= asStr,
          lookupField "parts" fs >>= asArr,
          decodeOptField decMetadata "metadata" fs,
          decodeOptField (fun v => asArr v >>= decodeList asStr)
            "extensions" fs with
      | some aid, some nm, some parts, some md, some exts =>
          (decodeList decPart parts).map (fun ps => ⟨aid, nm, ps, md, exts⟩)
      | _, _, _, _, _ => none
  | _ => none

/-- JSON encoding of the artifact mapping of a Task as an object keyed
by artifact id. -/
def encArtifactMap (m : List (String × Artifact)) : JsonValue :=
  .obj (m.map (fun p => (p.1, encArtifact p.2)))

/-- JSON decoding of the artifact mapping of a Task. -/
def decArtifactMapFields : List (String × JsonValue) →
    Option (List (String × Artifact))
  | [] => some []
  | (k, v) :: rest =>
      match decArtifact v, decArtifactMapFields rest with
      | some a, some m => some ((k, a) :: m)
      | _, _ => none

/-- JSON decoding of an artifact mapping object. -/
def decArtifactMap : JsonValue → Option (List (String × Artifact))
  | .obj fs => decArtifactMapFields fs
  | _ => none

/-- JSON encoding of a Task; the optional history is omitted when
absent. -/
def encTask (t : Task) : JsonValue :=
  .obj ([("kind", .str "task"),
         ("id", .str t.id),
         ("contextId", .str t.context_id),
         ("status", encTaskStatus t.status),
         ("artifacts", encArtifactMap t.artifacts)]
    ++ optField "history"
        (t.history.map (fun hs => .arr (hs.map encMessage))))

/-- JSON decoding of a Task. -/
def decTask : JsonValue → Option Task
  | .obj fs =>
      match lookupField "id" fs >>= asStr,
          lookupField "contextId" fs >>= asStr,
          lookupField "status" fs >>= decTaskStatus,
          lookupField "artifacts" fs >>= decArtifactMap,
          decodeOptField (fun v => asArr v >>= decodeList decMessage)
            "history" fs with
      | some i, some cid, some st, some arts, some hist =>
          some ⟨i, cid, st, hist, arts⟩
      | _, _, _, _, _ => none
  | _ => none

/-- JSON encoding of a TaskStatusUpdateEvent. -/
def encStatusEvent (e : TaskStatusUpdateEvent) : JsonValue :=
  .obj [("kind", .str "status-update"),
        ("taskId", .str e.task_id),
        ("contextId", .str e.context_id),
        ("status", encTaskStatus e.status),
        ("final", .bool e.final)]

/-- JSON decoding of a TaskStatusUpdateEvent. -/
def decStatusEvent : JsonValue → Option TaskStatusUpdateEvent
  | .obj fs =>
      match lookupField "taskId" fs >>= asStr,
          lookupField "contextId" fs >>= asStr,
          lookupField "status" fs >>= decTaskStatus,
          lookupField "final" fs >>= asBool with
      | some tid, some cid, some st, some fin => some ⟨tid, cid, st, fin⟩
      | _, _, _, _ => none
  | _ => none

/-- JSON encoding of a TaskArtifactUpdateEvent. -/
def encArtifactEvent (e : TaskArtifactUpdateEvent) : JsonValue :=
  .obj [("kind", .str "artifact-update"),
        ("taskId", .str e.task_id),
        ("contextId", .str e.context_id),
        ("artifact", encArtifact e.artifact),
        ("append", .bool e.append),
        ("lastChunk", .bool e.last_chunk),
        ("final", .bool e.final)]

/-- JSON decoding of a TaskArtifactUpdateEvent. -/
def decArtifactEvent : JsonValue → Option TaskArtifactUpdateEvent
  | .obj fs =>
      match lookupField "taskId" fs >>= asStr,
          lookupField "contextId" fs >>= asStr,
          lookupField "artifact" fs >>= decArtifact,
          lookupField "append" fs >>= asBool,
          lookupField "lastChunk" fs >>= asBool,
          lookupField "final" fs >>= asBool with
      | some tid, some cid, some a, some ap, some lc, some fin =>
          some ⟨tid, cid, a, ap, lc, fin⟩
      | _, _, _, _, _, _ => none
  | _ => none

/-- JSON encoding of the authentication descriptor. -/
def encAuthInfo (a : PushNotificationAuthenticationInfo) : JsonValue :=
  .obj [("schemes", .arr (a.schemes.map .str)),
        ("credentials", .str a.credentials)]

/-- JSON decoding of the authentication descriptor. -/
def decAuthInfo : JsonValue → Option PushNotificationAuthenticationInfo
  | .obj fs =>
      match lookupField "schemes" fs >>= asArr,
          lookupField "credentials" fs >>= asStr with
      | some ss, some cr => (decodeList asStr ss).map (fun s => ⟨s, cr⟩)
      | _, _ => none
  | _ => none

/-- JSON encoding of a PushNotificationConfig; the optional
authentication descriptor is omitted when absent. -/
def encPushConfig (c : PushNotificationConfig) : JsonValue :=
  .obj ([("id", .str c.id),
         ("url", .str c.url),
         ("token", .str c.token)]
    ++ optField "authentication" (c.authentication.map encAuthInfo))

/-- JSON decoding of a PushNotificationConfig. -/
def decPushConfig : JsonValue → Option PushNotificationConfig
  | .obj fs =>
      match lookupField "id" fs >>= asStr,
          lookupField "url" fs >>= asStr,
          lookupField "token" fs >>= asStr,
          decodeOptField decAuthInfo "authentication" fs with
      | some i, some u, some tk, some au => some ⟨i, u, tk, au⟩
      | _, _, _, _ => none
  | _ => none

/-- Modelled from the spec: the binary transport carries the task state
as a numeric enum tag, tag 0 being the unspecified value. -/
def taskStateToProto (s : TaskState) : Nat :=
  match s with
  | .unknown => 0
  | .submitted => 1
  | .working => 2
  | .completed => 3
  | .failed => 4
  | .canceled => 5
  | .input_required => 6
  | .rejected => 7
  | .auth_required => 8

/-- Proto decoding of a task state tag; an unrecognized tag decodes to
the designated catch-all state `unknown`. -/
def taskStateFromProto (n : Nat) : TaskState :=
  match n with
  | 1 => .submitted
  | 2 => .working
  | 3 => .completed
  | 4 => .failed
  | 5 => .canceled
  | 6 => .input_required
  | 7 => .rejected
  | 8 => .auth_required
  | _ => .unknown

/-- Modelled from the spec: the binary transport carries the message
role as a numeric enum tag, tag 0 being the unspecified value. -/
def roleToProto (r : Role) : Nat :=
  match r with
  | .user => 1
  | .agent => 2

/-- Proto decoding of a role tag; the domain type has no catch-all, so
an unknown tag fails closed. -/
def roleFromProto (n : Nat) : Option Role :=
  match n with
  | 1 => some .user
  | 2 => some .agent
  | _ => none

/-- Wire form of a metadata entry on the binary transport. -/
structure MetadataEntryPb where
  key : String
  value : String
deriving Repr, DecidableEq

/-- Wire oneof of a Part on the binary transport. -/
inductive PartPbVariant where
  | text (content : String)
  | file (uri : String)
  | payload (entries : List MetadataEntryPb)
  | unset
deriving Repr, DecidableEq

/-- Wire form of a Part. -/
structure PartPb where
  variant : PartPbVariant
  metadata : Option (List MetadataEntryPb) := none
deriving Repr, DecidableEq

/-- Wire form of a Message. -/
structure MessagePb where
  role : Nat
  parts : List PartPb
  message_id : String
  task_id : Option String := none
  context_id : Option String := none
deriving Repr, DecidableEq

/-- Wire form of a TaskStatus. -/
structure TaskStatusPb where
  state : Nat
  message : Option MessagePb := none
  timestamp : Option String := none
deriving Repr, DecidableEq

/-- Wire form of an Artifact. -/
structure ArtifactPb where
  artifact_id : String
  name : String
  parts : List PartPb
  metadata : Option (List MetadataEntryPb) := none
  extensions : Option (List String) := none
deriving Repr, DecidableEq

/-- Wire form of one entry of the artifact map of a Task. -/
structure ArtifactEntryPb where
  key : String
  value : ArtifactPb
deriving Repr, DecidableEq

/-- Wire form of a Task. -/
structure TaskPb where
  id : String
  context_id : String
  status : TaskStatusPb
  history : Option (List MessagePb) := none
  artifacts : List ArtifactEntryPb := []
deriving Repr, DecidableEq

/-- Wire form of a TaskStatusUpdateEvent. -/
structure TaskStatusUpdateEventPb where
  task_id : String
  context_id : String
  status : TaskStatusPb
  final : Bool
deriving Repr, DecidableEq

/-- Wire form of a TaskArtifactUpdateEvent. -/
structure TaskArtifactUpdateEventPb where
  task_id : String
  context_id : String
  artifact : ArtifactPb
  append : Bool
  last_chunk : Bool
  final : Bool
deriving Repr, DecidableEq

/-- Wire form of the authentication descriptor. -/
structure AuthenticationInfoPb where
  schemes : List String
  credentials : String
deriving Repr, DecidableEq

/-- Wire form of a PushNotificationConfig. -/
structure PushNotificationConfigPb where
  id : String
  url : String
  token : String
  authentication : Option AuthenticationInfoPb := none
deriving Repr, DecidableEq

/-- Proto encoding of a metadata mapping as repeated entries. -/
def metadataToProto (m : Metadata) : List MetadataEntryPb :=
  m.map (fun p => ⟨p.1, p.2⟩)

/-- Proto decoding of repeated metadata entries. -/
def metadataFromProto (es : List MetadataEntryPb) : Metadata :=
  es.map (fun e => (e.key, e.value))

/-- Proto encoding of a Part. -/
def partToProto (p : Part) : PartPb :=
  { variant :=
      match p.variant with
      | .text s => .text s
      | .file u => .file u
      | .dataBlob d => .payload (metadataToProto d),
    metadata := p.metadata.map metadataToProto }

/-- Proto decoding of a Part; an unset oneof fails closed. -/
def partFromProto (p : PartPb) : Option Part :=
  match p.variant with
  | .text s =>
      some { variant := .text s, metadata := p.metadata.map metadataFromProto }
  | .file u =>
      some { variant := .file u, metadata := p.metadata.map metadataFromProto }
  | .payload d =>
      some { variant := .dataBlob (metadataFromProto d),
             metadata := p.metadata.map metadataFromProto }
  | .unset => none

/-- Proto decoding of a part list. -/
def partListFromProto : List PartPb → Option (List Part)
  | [] => some []
  | p :: ps =>
      match partFromProto p, partListFromProto ps with
      | some a, some ys => some (a :: ys)
      | _, _ => none

/-- Proto encoding of a Message. -/
def messageToProto (m : Message) : MessagePb :=
  ⟨roleToProto m.role, m.parts.map partToProto, m.message_id,
   m.task_id, m.context_id⟩

/-- Proto decoding of a Message. -/
def messageFromProto (m : MessagePb) : Option Message :=
  match roleFromProto m.role, partListFromProto m.parts with
  | some r, some ps => some ⟨r, ps, m.message_id, m.task_id, m.context_id⟩
  | _, _ => none

/-- Proto encoding of a TaskStatus. -/
def taskStatusToProto (s : TaskStatus) : TaskStatusPb :=
  ⟨taskStateToProto s.state, s.message.map messageToProto, s.timestamp⟩

/-- Proto decoding of a TaskStatus. -/
def taskStatusFromProto (s : TaskStatusPb) : Option TaskStatus :=
  match s.message with
  | none => some ⟨taskStateFromProto s.state, none, s.timestamp⟩
  | some m =>
      (messageFromProto m).map
        (fun dm => ⟨taskStateFromProto s.state, some dm, s.timestamp⟩)

/-- Proto encoding of an Artifact. -/
def artifactToProto (a : Artifact) : ArtifactPb :=
  ⟨a.artifact_id, a.name, a.parts.map partToProto,
   a.metadata.map metadataToProto, a.extensions⟩

/-- Proto decoding of an Artifact. -/
def artifactFromProto (a : ArtifactPb) : Option Artifact :=
  (partListFromProto a.parts).map
    (fun ps =>
      ⟨a.artifact_id, a.name, ps, a.metadata.map metadataFromProto,
       a.extensions⟩)

/-- Proto decoding of a message list. -/
def messageListFromProto : List MessagePb → Option (List Message)
  | [] => some []
  | m :: ms =>
      match messageFromProto m, messageListFromProto ms with
      | some a, some ys => some (a :: ys)
      | _, _ => none

/-- Proto decoding of the artifact map entries. -/
def artifactEntriesFromProto : List ArtifactEntryPb →
    Option (List (String × Artifact))
  | [] => some []
  | e :: es =>
      match artifactFromProto e.value, artifactEntriesFromProto es with
      | some a, some ys => some ((e.key, a) :: ys)
      | _, _ => none

/-- Proto encoding of a Task. -/
def taskToProto (t : Task) : TaskPb :=
  ⟨t.id, t.context_id, taskStatusToProto t.status,
   t.history.map (fun hs => hs.map messageToProto),
   t.artifacts.map (fun p => ⟨p.1, artifactToProto p.2⟩)⟩

/-- Proto decoding of a Task. -/
def taskFromProto (t : TaskPb) : Option Task :=
  match taskStatusFromProto t.status,
      (match t.history with
       | none => some none
       | some hs => (messageListFromProto hs).map some),
      artifactEntriesFromProto t.artifacts with
  | some st, some hist, some arts =>
      some ⟨t.id, t.context_id, st, hist, arts⟩
  | _, _, _ => none

/-- Proto encoding of a TaskStatusUpdateEvent. -/
def statusEventToProto (e : TaskStatusUpdateEvent) : TaskStatusUpdateEventPb :=
  ⟨e.task_id, e.context_id, taskStatusToProto e.status, e.final⟩

/-- Proto decoding of a TaskStatusUpdateEvent. -/
def statusEventFromProto (e : TaskStatusUpdateEventPb) :
    Option TaskStatusUpdateEvent :=
  (taskStatusFromProto e.status).map
    (fun st => ⟨e.task_id, e.context_id, st, e.final⟩)

/-- Proto encoding of a TaskArtifactUpdateEvent. -/
def artifactEventToProto (e : TaskArtifactUpdateEvent) :
    TaskArtifactUpdateEventPb :=
  ⟨e.task_id, e.context_id, artifactToProto e.artifact, e.append,
   e.last_chunk, e.final⟩

/-- Proto decoding of a TaskArtifactUpdateEvent. -/
def artifactEventFromProto (e : TaskArtifactUpdateEventPb) :
    Option TaskArtifactUpdateEvent :=
  (artifactFromProto e.artifact).map
    (fun a => ⟨e.task_id, e.context_id, a, e.append, e.last_chunk, e.final⟩)

/-- Proto encoding of the authentication descriptor. -/
def authInfoToProto (a : PushNotificationAuthenticationInfo) :
    AuthenticationInfoPb :=
  ⟨a.schemes, a.credentials⟩

/-- Proto decoding of the authentication descriptor. -/
def authInfoFromProto (a : AuthenticationInfoPb) :
    PushNotificationAuthenticationInfo :=
  ⟨a.schemes, a.credentials⟩

/-- Proto encoding of a PushNotificationConfig. -/
def pushConfigToProto (c : PushNotificationConfig) :
    PushNotificationConfigPb :=
  ⟨c.id, c.url, c.token, c.authentication.map authInfoToProto⟩

/-- Proto decoding of a PushNotificationConfig; total, every field of
the wire form mapping back directly. -/
def pushConfigFromProto (c : PushNotificationConfigPb) :
    PushNotificationConfig :=
  ⟨c.id, c.url, c.token, c.authentication.map authInfoFromProto⟩

/-- Modelled from the spec: the fixed JSON-RPC parse error code of the
error taxonomy. -/
def JSON_PARSE_ERROR_CODE : Int := -32700

/-- Modelled from the spec: the fixed invalid-request code of the error
taxonomy. -/
def INVALID_REQUEST_ERROR_CODE : Int := -32600

/-- Modelled from the spec: the fixed method-not-found code of the error
taxonomy. -/
def METHOD_NOT_FOUND_ERROR_CODE : Int := -32601

/-- Modelled from the spec: the fixed invalid-params code of the error
taxonomy. -/
def INVALID_PARAMS_ERROR_CODE : Int := -32602

/-- Modelled from the spec: the fixed internal error code of the error
taxonomy. -/
def INTERNAL_ERROR_CODE : Int := -32603

/-- Modelled from the spec: the fixed task-not-found code of the error
taxonomy. -/
def TASK_NOT_FOUND_ERROR_CODE : Int := -32001

/-- A structured protocol error: a stable code and a human readable
message. -/
structure A2AError where
  code : Int
  message : String
deriving Repr, DecidableEq

/-- Modelled from the spec: the recognizer for structured resource names
of the shape `tasks/<id>` used by the gRPC client for push-notification
config operations (`a2a/client/grpc_client.py` is not among the provided
sources). Exactly two slash-separated segments, the first being the
literal `tasks` and the second the non-empty task id. -/
def matchTaskName (name : String) : Option String :=
  match PyLib.pySplit name '/' with
  | [seg, id] => if seg = "tasks" ∧ id ≠ "" then some id else none
  | _ => none

/-- Modelled from the spec: extraction of the task id from a structured
resource name; a name that does not match the expected shape is rejected
as a TaskNotFound error whose message is `No task for ` followed by the
offending name, never silently truncated. -/
def taskIdFromName (name : String) : Except A2AError String :=
  match matchTaskName name with
  | some id => .ok id
  | none => .error ⟨TASK_NOT_FOUND_ERROR_CODE, "No task for " ++ name⟩

/-- The domain association of a push-notification config with a task. -/
structure TaskPushNotificationConfig where
  task_id : String
  push_notification_config : PushNotificationConfig
deriving Repr, DecidableEq

/-- Wire form of the push-notification config response handled by the
gRPC client: a structured parent resource name plus the stored config. -/
structure TaskPushConfigResponsePb where
  parent : String
  config_id : String
  config : PushNotificationConfigPb
deriving Repr, DecidableEq

/-- Modelled from the spec: translation of a received push-notification
config response into the domain association, validating the structured
parent name. -/
def taskPushConfigFromResponse (resp : TaskPushConfigResponsePb) :
    Except A2AError TaskPushNotificationConfig :=
  match taskIdFromName resp.parent with
  | .ok id => .ok ⟨id, pushConfigFromProto resp.config⟩
  | .error e => .error e

/-- Modelled from the spec: the gRPC client `set_task_callback`
operation, applied to the response returned by the stub. -/
def setTaskCallback (resp : TaskPushConfigResponsePb) :
    Except A2AError TaskPushNotificationConfig :=
  taskPushConfigFromResponse resp

/-- Modelled from the spec: the gRPC client `get_task_callback`
operation, applied to the response returned by the stub. -/
def getTaskCallback (resp : TaskPushConfigResponsePb) :
    Except A2AError TaskPushNotificationConfig :=
  taskPushConfigFromResponse resp

/-- The persisted task store, keyed by task id. -/
abbrev TaskStore := List (String × Task)

/-- The observable behavior of the pluggable handler or executor for one
request: either it completes with a result and a successor store, or it
raises an exception carrying a message and a stack trace. -/
inductive ExecutorBehavior where
  | returns (result : JsonValue) (store' : TaskStore)
  | raises (message : String) (trace : String)
deriving Repr

/-- Outcome of a dispatched call: a JSON result or a classified error. -/
inductive RpcOutcome where
  | success (result : JsonValue)
  | failure (code : Int) (message : String)
deriving Repr

/-- Result of the dispatcher: the outcome, the store after the call and
whether the handler or executor was invoked. -/
structure DispatchResult where
  outcome : RpcOutcome
  store : TaskStore
  executor_invoked : Bool
deriving Repr

/-- Modelled from the spec: the methods the dispatcher exposes. -/
def knownMethods : List String :=
  ["message/send", "message/stream", "tasks/get", "tasks/cancel",
   "tasks/resubscribe", "tasks/pushNotificationConfig/set",
   "tasks/pushNotificationConfig/get"]

/-- Modelled from the spec: parameter shape validation for the named
method, reusing the JSON decoders of the domain model; `message/send`
requires a decodable message object, the task operations require a
string task id. -/
def validParams (method : String) (params : JsonValue) : Bool :=
  match method with
  | "message/send" | "message/stream" =>
      (match params with
       | .obj fs => (lookupField "message" fs >>= decMessage).isSome
       | _ => false)
  | "tasks/get" | "tasks/cancel" | "tasks/resubscribe"
  | "tasks/pushNotificationConfig/get" =>
      (match params with
       | .obj fs => (lookupField "id" fs >>= asStr).isSome
       | _ => false)
  | "tasks/pushNotificationConfig/set" =>
      (match params with
       | .obj fs =>
           (lookupField "pushNotificationConfig" fs >>= decPushConfig).isSome
             ∧ (lookupField "taskId" fs >>= asStr).isSome
       | _ => false)
  | _ => true

/-- Modelled from the spec: the dispatcher validates the method and the
parameter shape before invoking the handler or executor, and classifies
an exception with no recognized classification as an Internal error that
carries the original message text and never the stack trace. -/
def dispatch (method : String) (params : JsonValue) (store : TaskStore)
    (executor : ExecutorBehavior) : DispatchResult :=
  if ¬ knownMethods.contains method then
    ⟨.failure METHOD_NOT_FOUND_ERROR_CODE "Method not found", store, false⟩
  else if ¬ validParams method params then
    ⟨.failure INVALID_PARAMS_ERROR_CODE "Invalid parameters", store, false⟩
  else
    match executor with
    | .returns r store' => ⟨.success r, store', true⟩
    | .raises msg _trace => ⟨.failure INTERNAL_ERROR_CODE msg, store, true⟩

/-- A parsed JSON-RPC request object. -/
structure RpcRequest where
  id : JsonValue
  method : String
  params : JsonValue
deriving Repr

/-- Modelled from the spec: recognition of a valid JSON-RPC request
object: a JSON object whose `jsonrpc` member is the string `2.0` and
whose `method` member is a string; anything else (including arrays) is
an invalid request. -/
def parseRpcRequest (v : JsonValue) : Option RpcRequest :=
  match v with
  | .obj fs =>
      match lookupField "jsonrpc" fs, lookupField "method" fs with
      | some (.str ver), some (.str m) =>
          if ver = "2.0" then
            some ⟨(lookupField "id" fs).getD .null, m,
                  (lookupField "params" fs).getD .null⟩
          else none
      | _, _ => none
  | _ => none

/-- The raw body of an HTTP POST to the RPC endpoint, as seen after the
JSON parsing step: either bytes that are not valid JSON, or a parsed
JSON document. -/
inductive HttpBody where
  | invalidJson
  | json (v : JsonValue)

/-- A JSON-RPC success envelope. -/
def successEnvelope (id result : JsonValue) : JsonValue :=
  .obj [("jsonrpc", .str "2.0"), ("id", id), ("result", result)]

/-- A JSON-RPC error envelope. -/
def errorEnvelope (id : JsonValue) (code : Int) (message : String) :
    JsonValue :=
  .obj [("jsonrpc", .str "2.0"), ("id", id),
        ("error", .obj [("code", .num code), ("message", .str message)])]

/-- An HTTP response: transport status and JSON body. -/
structure HttpResponse where
  status : Nat
  body : JsonValue
deriving Repr

/-- Modelled from the spec: the HTTP POST handler of the JSON-RPC
transport (`a2a/server/apps/jsonrpc/jsonrpc_app.py` is not among the
provided sources). Every failure is reported inside a successful
transport-level envelope: unparseable bodies as ParseError, parseable
bodies that are not valid request objects as InvalidRequest, and
dispatched requests per the dispatcher classification. -/
def handlePost (body : HttpBody) (store : TaskStore)
    (executor : ExecutorBehavior) : HttpResponse × TaskStore × Bool :=
  match body with
  | .invalidJson =>
      (⟨200, errorEnvelope .null JSON_PARSE_ERROR_CODE
          "Invalid JSON payload"⟩,
       store, false)
  | .json v =>
      match parseRpcRequest v with
      | none =>
          (⟨200, errorEnvelope .null INVALID_REQUEST_ERROR_CODE
              "Request payload validation error"⟩,
           store, false)
      | some req =>
          let r := dispatch req.method req.params store executor
          match r.outcome with
          | .success res =>
              (⟨200, successEnvelope req.id res⟩, r.store,
               r.executor_invoked)
          | .failure code msg =>
              (⟨200, errorEnvelope req.id code msg⟩, r.store,
               r.executor_invoked)

/-- Reads the error code of a JSON-RPC envelope. -/
def errorCodeOf (body : JsonValue) : Option Int :=
  match body with
  | .obj fs =>
      match lookupField "error" fs with
      | some (.obj efs) =>
          match lookupField "code" efs with
          | some (.num n) => some n
          | _ => none
      | _ => none
  | _ => none

/-- Reads the error message of a JSON-RPC envelope. -/
def errorMessageOf (body : JsonValue) : Option String :=
  match body with
  | .obj fs =>
      match lookupField "error" fs with
      | some (.obj efs) =>
          match lookupField "message" efs with
          | some (.str s) => some s
          | _ => none
      | _ => none
  | _ => none

end Spec

namespace A2A

/-- The catalog entry the specification describes for one mounted route
builder: the anchor is the agent-card URL joined with the rpc path, and
the describedby list holds the joined agent-card path, plus the joined
extended-card path exactly when an extended card is provided and the
card flag is set. Stated from the claim for comparison with the entry
the code computes. -/
def expectedLink (rb : StarletteRouteBuilder) : AgentLinkContext :=
  { anchor := joinUrl rb.agent_card.url [rb.config.rpc_path],
    describedby :=
      [⟨joinUrl rb.agent_card.url [rb.config.agent_card_path]⟩]
        ++ (if rb.extended_agent_card.isSome
              ∧ rb.agent_card.supports_authenticated_extended_card then
            [⟨joinUrl rb.agent_card.url [rb.config.extended_agent_card_path]⟩]
          else []) }

/-- The agent card of the integration tests, with the extended-card
flag cleared. -/
def testAgentCard : AgentCard :=
  ⟨"TestAgent", "http://example.com/agent", false⟩

/-- A route builder over the test agent card with the default route
configuration, as the builder tests construct it. -/
def testRouteBuilder : StarletteRouteBuilder :=
  { agent_card := testAgentCard }

/-- The builder state reached by mounting `testRouteBuilder` into an
empty `StarletteBuilder`. -/
def testBuilderState : StarletteBuilderState :=
  ⟨[⟨getPathFromUrl testAgentCard.url, testRouteBuilder.build⟩],
   [expectedLink testRouteBuilder]⟩

end A2A

namespace Spec

/-- The push-notification config of the gRPC client tests, in wire
form. -/
def sampleConfigPb : PushNotificationConfigPb :=
  ⟨"config-1", "https://example.com/notify", "example-token",
   some ⟨["apikey", "oauth2"], "secret-token"⟩⟩

end Spec

namespace Spec

theorem decMetadataFields_enc (m : Metadata) :
    decMetadataFields (m.map (fun p => (p.1, JsonValue.str p.2))) = some m := by
  induction m with
  | nil => rfl
  | cons hd tl ih => simp [decMetadataFields, ih]

theorem decMetadata_enc (m : Metadata) :
    decMetadata (encMetadata m) = some m := by
  simp [decMetadata, encMetadata, decMetadataFields_enc]

theorem decRole_enc (r : Role) : decRole (encRole r) = some r := by
  cases r <;> rfl

theorem decPart_enc (p : Part) : decPart (encPart p) = some p := by
  obtain ⟨v, md⟩ := p
  cases v <;> cases md <;>
    simp [encPart, decPart, decodeOptField, lookupField, optField,
      decMetadata_enc, asStr]

theorem decodeList_enc {α : Type} (dec : JsonValue → Option α)
    (enc : α → JsonValue) (h : ∀ a, dec (enc a) = some a) (xs : List α) :
    decodeList dec (xs.map enc) = some xs := by
  induction xs with
  | nil => rfl
  | cons hd tl ih => simp [decodeList, h, ih]

theorem decTaskState_enc (s : TaskState) :
    decTaskState (encTaskState s) = some s := by
  cases s <;> rfl

theorem decMessage_enc (m : Message) : decMessage (encMessage m) = some m := by
  obtain ⟨r, ps, mid, tid, cid⟩ := m
  cases tid <;> cases cid <;>
    simp [encMessage, decMessage, decodeOptField, lookupField, optField,
      decRole_enc, asStr, asArr, decodeList_enc _ _ decPart_enc]

theorem decTaskStatus_enc (s : TaskStatus) :
    decTaskStatus (encTaskStatus s) = some s := by
  obtain ⟨st, msg, ts⟩ := s
  cases msg <;> cases ts <;>
    simp [encTaskStatus, decTaskStatus, decodeOptField, lookupField,
      optField, decTaskState_enc, decMessage_enc, asStr]

theorem decArtifact_enc (a : Artifact) :
    decArtifact (encArtifact a) = some a := by
  obtain ⟨aid, nm, ps, md, exts⟩ := a
  cases md <;> cases exts <;>
    simp [encArtifact, decArtifact, decodeOptField, lookupField, optField,
      decMetadata_enc, asStr, asArr, decodeList_enc _ _ decPart_enc,
      decodeList_enc asStr JsonValue.str (fun a => rfl)]

theorem decArtifactMapFields_enc (m : List (String × Artifact)) :
    decArtifactMapFields (m.map (fun p => (p.1, encArtifact p.2)))
      = some m := by
  induction m with
  | nil => rfl
  | cons hd tl ih => simp [decArtifactMapFields, decArtifact_enc, ih]

theorem decTask_enc (t : Task) : decTask (encTask t) = some t := by
  obtain ⟨i, cid, st, hist, arts⟩ := t
  cases hist <;>
    simp [encTask, decTask, decodeOptField, lookupField, optField,
      decTaskStatus_enc, decArtifactMap, encArtifactMap,
      decArtifactMapFields_enc, asStr, asArr,
      decodeList_enc _ _ decMessage_enc]

theorem decStatusEvent_enc (e : TaskStatusUpdateEvent) :
    decStatusEvent (encStatusEvent e) = some e := by
  obtain ⟨tid, cid, st, fin⟩ := e
  simp [encStatusEvent, decStatusEvent, lookupField, decTaskStatus_enc,
    asStr, asBool]

theorem decArtifactEvent_enc (e : TaskArtifactUpdateEvent) :
    decArtifactEvent (encArtifactEvent e) = some e := by
  obtain ⟨tid, cid, a, ap, lc, fin⟩ := e
  simp [encArtifactEvent, decArtifactEvent, lookupField, decArtifact_enc,
    asStr, asBool]

theorem decAuthInfo_enc (a : PushNotificationAuthenticationInfo) :
    decAuthInfo (encAuthInfo a) = some a := by
  obtain ⟨ss, cr⟩ := a
  simp [encAuthInfo, decAuthInfo, lookupField, asStr, asArr,
    decodeList_enc asStr JsonValue.str (fun a => rfl)]

theorem decPushConfig_enc (c : PushNotificationConfig) :
    decPushConfig (encPushConfig c) = some c := by
  obtain ⟨i, u, tk, au⟩ := c
  cases au <;>
    simp [encPushConfig, decPushConfig, decodeOptField, lookupField,
      optField, decAuthInfo_enc, asStr]

theorem taskStateFromProto_to (s : TaskState) :
    taskStateFromProto (taskStateToProto s) = s := by
  cases s <;> rfl

theorem roleFromProto_to (r : Role) :
    roleFromProto (roleToProto r) = some r := by
  cases r <;> rfl

theorem metadataFromProto_to (m : Metadata) :
    metadataFromProto (metadataToProto m) = m := by
  induction m with
  | nil => rfl
  | cons hd tl ih => simp_all [metadataToProto, metadataFromProto]

theorem partFromProto_to (p : Part) :
    partFromProto (partToProto p) = some p := by
  obtain ⟨v, md⟩ := p
  cases v <;> cases md <;>
    simp [partToProto, partFromProto, metadataFromProto_to]

theorem partListFromProto_to (ps : List Part) :
    partListFromProto (ps.map partToProto) = some ps := by
  induction ps with
  | nil => rfl
  | cons hd tl ih => simp [partListFromProto, partFromProto_to, ih]

theorem messageFromProto_to (m : Message) :
    messageFromProto (messageToProto m) = some m := by
  obtain ⟨r, ps, mid, tid, cid⟩ := m
  simp [messageToProto, messageFromProto, roleFromProto_to,
    partListFromProto_to]

theorem taskStatusFromProto_to (s : TaskStatus) :
    taskStatusFromProto (taskStatusToProto s) = some s := by
  obtain ⟨st, msg, ts⟩ := s
  cases msg <;>
    simp [taskStatusToProto, taskStatusFromProto, taskStateFromProto_to,
      messageFromProto_to]

theorem artifactFromProto_to (a : Artifact) :
    artifactFromProto (artifactToProto a) = some a := by
  obtain ⟨aid, nm, ps, md, exts⟩ := a
  cases md <;>
    simp [artifactToProto, artifactFromProto, partListFromProto_to,
      metadataFromProto_to]

theorem messageListFromProto_to (ms : List Message) :
    messageListFromProto (ms.map messageToProto) = some ms := by
  induction ms with
  | nil => rfl
  | cons hd tl ih => simp [messageListFromProto, messageFromProto_to, ih]

theorem artifactEntriesFromProto_to (es : List (String × Artifact)) :
    artifactEntriesFromProto
      (es.map (fun p => ArtifactEntryPb.mk p.1 (artifactToProto p.2)))
      = some es := by
  induction es with
  | nil => rfl
  | cons hd tl ih =>
      simp [artifactEntriesFromProto, artifactFromProto_to, ih]

theorem taskFromProto_to (t : Task) :
    taskFromProto (taskToProto t) = some t := by
  obtain ⟨i, cid, st, hist, arts⟩ := t
  cases hist <;>
    simp [taskToProto, taskFromProto, taskStatusFromProto_to,
      messageListFromProto_to, artifactEntriesFromProto_to]

theorem statusEventFromProto_to (e : TaskStatusUpdateEvent) :
    statusEventFromProto (statusEventToProto e) = some e := by
  obtain ⟨tid, cid, st, fin⟩ := e
  simp [statusEventToProto, statusEventFromProto, taskStatusFromProto_to]

theorem artifactEventFromProto_to (e : TaskArtifactUpdateEvent) :
    artifactEventFromProto (artifactEventToProto e) = some e := by
  obtain ⟨tid, cid, a, ap, lc, fin⟩ := e
  simp [artifactEventToProto, artifactEventFromProto, artifactFromProto_to]

theorem pushConfigFromProto_to (c : PushNotificationConfig) :
    pushConfigFromProto (pushConfigToProto c) = c := by
  obtain ⟨i, u, tk, au⟩ := c
  cases au <;>
    simp [pushConfigToProto, pushConfigFromProto, authInfoToProto,
      authInfoFromProto]

end Spec

namespace Spec

/-- C1: decoding the encoding of a value yields the original value for
Task, Message, TaskStatusUpdateEvent, TaskArtifactUpdateEvent and
PushNotificationConfig, on both the proto translator and the JSON
translator, for every value, with optional fields populated or
omitted. -/
theorem claim_C1_round_trip :
    (∀ v : Task, taskFromProto (taskToProto v) = some v)
    ∧ (∀ v : Message, messageFromProto (messageToProto v) = some v)
    ∧ (∀ v : TaskStatusUpdateEvent,
        statusEventFromProto (statusEventToProto v) = some v)
    ∧ (∀ v : TaskArtifactUpdateEvent,
        artifactEventFromProto (artifactEventToProto v) = some v)
    ∧ (∀ v : PushNotificationConfig,
        pushConfigFromProto (pushConfigToProto v) = v)
    ∧ (∀ v : Task, decTask (encTask v) = some v)
    ∧ (∀ v : Message, decMessage (encMessage v) = some v)
    ∧ (∀ v : TaskStatusUpdateEvent, decStatusEvent (encStatusEvent v) = some v)
    ∧ (∀ v : TaskArtifactUpdateEvent,
        decArtifactEvent (encArtifactEvent v) = some v)
    ∧ (∀ v : PushNotificationConfig,
        decPushConfig (encPushConfig v) = some v) :=
  ⟨taskFromProto_to, messageFromProto_to, statusEventFromProto_to,
   artifactEventFromProto_to, pushConfigFromProto_to, decTask_enc,
   decMessage_enc, decStatusEvent_enc, decArtifactEvent_enc,
   decPushConfig_enc⟩

/-- C2: a structured resource name received by the push-notification
config operations that does not match the `tasks/<id>` shape produces a
TaskNotFound error whose message is `No task for ` followed by the
offending name; a matching name has its task id segment extracted and
returned in the resulting config. -/
theorem claim_C2_resource_name (resp : TaskPushConfigResponsePb) :
    (∀ id, matchTaskName resp.parent = some id →
      setTaskCallback resp = .ok ⟨id, pushConfigFromProto resp.config⟩
        ∧ getTaskCallback resp = .ok ⟨id, pushConfigFromProto resp.config⟩)
    ∧ (matchTaskName resp.parent = none →
        ∃ e, setTaskCallback resp = .error e
          ∧ getTaskCallback resp = .error e
          ∧ e.code = TASK_NOT_FOUND_ERROR_CODE
          ∧ e.message = "No task for " ++ resp.parent) := by
  constructor
  · intro id h
    constructor <;>
      simp [setTaskCallback, getTaskCallback, taskPushConfigFromResponse,
        taskIdFromName, h]
  · intro h
    refine ⟨⟨TASK_NOT_FOUND_ERROR_CODE, "No task for " ++ resp.parent⟩,
      ?_, ?_, rfl, rfl⟩ <;>
      simp [setTaskCallback, getTaskCallback, taskPushConfigFromResponse,
        taskIdFromName, h]

/-- Witness for C2 at the concrete resource names of the tests. -/
theorem claim_C2_witness :
    (setTaskCallback ⟨"tasks/task-1", "config-1", sampleConfigPb⟩
      = .ok ⟨"task-1", pushConfigFromProto sampleConfigPb⟩)
    ∧ (∃ e, setTaskCallback
          ⟨"invalid-path-to-tasks/task-1", "config-1", sampleConfigPb⟩
        = .error e
      ∧ getTaskCallback
          ⟨"invalid-path-to-tasks/task-1", "config-1", sampleConfigPb⟩
        = .error e
      ∧ e.code = TASK_NOT_FOUND_ERROR_CODE
      ∧ e.message = "No task for " ++ "invalid-path-to-tasks/task-1") :=
  ⟨((claim_C2_resource_name ⟨"tasks/task-1", "config-1", sampleConfigPb⟩).1
      "task-1" (by decide)).1,
   (claim_C2_resource_name ⟨"invalid-path-to-tasks/task-1", "config-1",
      sampleConfigPb⟩).2 (by decide)⟩

/-- C3: every POST body is answered with transport status 200; a body
that is not valid JSON produces the fixed ParseError code in the
envelope, and a JSON body that is not a valid request object produces
the fixed InvalidRequest code. -/
theorem claim_C3_transport_envelope (body : HttpBody) (store : TaskStore)
    (executor : ExecutorBehavior) :
    (handlePost body store executor).1.status = 200
    ∧ (body = .invalidJson →
        errorCodeOf (handlePost body store executor).1.body
          = some JSON_PARSE_ERROR_CODE)
    ∧ (∀ v, body = .json v → parseRpcRequest v = none →
        errorCodeOf (handlePost body store executor).1.body
          = some INVALID_REQUEST_ERROR_CODE) := by
  refine ⟨?_, ?_, ?_⟩
  · cases body with
    | invalidJson => rfl
    | json v =>
        simp only [handlePost]
        cases parseRpcRequest v with
        | none => rfl
        | some req =>
            cases hd : (dispatch req.method req.params store executor).outcome
              <;> simp [hd]
  · intro h
    subst h
    rfl
  · intro v hv hp
    subst hv
    simp [handlePost, hp, errorCodeOf, errorEnvelope, lookupField]

/-- Witness for C3 at the request bodies of the tests: raw non-JSON
bytes and a JSON array. -/
theorem claim_C3_witness :
    ((handlePost .invalidJson [] (.returns .null [])).1.status = 200
      ∧ errorCodeOf (handlePost .invalidJson [] (.returns .null [])).1.body
        = some JSON_PARSE_ERROR_CODE)
    ∧ errorCodeOf
        (handlePost (.json (.arr [.str "not", .str "a", .str "dict"])) []
          (.returns .null [])).1.body
      = some INVALID_REQUEST_ERROR_CODE :=
  ⟨⟨(claim_C3_transport_envelope .invalidJson [] (.returns .null [])).1,
    (claim_C3_transport_envelope .invalidJson [] (.returns .null [])).2.1
      rfl⟩,
   (claim_C3_transport_envelope
      (.json (.arr [.str "not", .str "a", .str "dict"])) []
      (.returns .null [])).2.2 _ rfl rfl⟩

/-- C4: a request for a known method whose params fail shape validation
is answered with the fixed InvalidParams code, the handler or executor
is never invoked and the store is unchanged. -/
theorem claim_C4_invalid_params (method : String) (params : JsonValue)
    (store : TaskStore) (executor : ExecutorBehavior)
    (hm : knownMethods.contains method = true)
    (hv : validParams method params = false) :
    dispatch method params store executor
      = ⟨.failure INVALID_PARAMS_ERROR_CODE "Invalid parameters",
         store, false⟩ := by
  have hm' : method ∈ knownMethods := by simpa using hm
  simp [dispatch, hm', hv]

/-- Witness for C4 at the message of the validation-error test, which
lacks the required message fields. -/
theorem claim_C4_witness :
    knownMethods.contains "message/send" = true
    ∧ validParams "message/send"
        (.obj [("message", .obj [("text", .str "Hello")])]) = false
    ∧ dispatch "message/send"
        (.obj [("message", .obj [("text", .str "Hello")])])
        [] (.returns .null [])
      = ⟨.failure INVALID_PARAMS_ERROR_CODE "Invalid parameters",
         [], false⟩ :=
  ⟨rfl, rfl,
   claim_C4_invalid_params "message/send"
     (.obj [("message", .obj [("text", .str "Hello")])])
     [] (.returns .null []) rfl rfl⟩

/-- C5: when the handler or executor raises an exception with no
recognized classification, the response carries the fixed Internal
error code and exactly the original exception message; the result does
not depend on the stack trace, which is therefore never exposed. -/
theorem claim_C5_internal_error (method : String) (params : JsonValue)
    (store : TaskStore) (msg trace : String)
    (hm : knownMethods.contains method = true)
    (hv : validParams method params = true) :
    dispatch method params store (.raises msg trace)
      = ⟨.failure INTERNAL_ERROR_CODE msg, store, true⟩ := by
  have hm' : method ∈ knownMethods := by simpa using hm
  simp [dispatch, hm', hv]

/-- Witness for C5 at the request of the unhandled-exception test. -/
theorem claim_C5_witness :
    dispatch "tasks/get" (.obj [("id", .str "task1")]) []
        (.raises "Unexpected error"
          "Traceback (most recent call last): raw stack trace")
      = ⟨.failure INTERNAL_ERROR_CODE "Unexpected error", [], true⟩ :=
  claim_C5_internal_error "tasks/get" (.obj [("id", .str "task1")]) []
    "Unexpected error" "Traceback (most recent call last): raw stack trace"
    rfl rfl

end Spec

namespace A2A

theorem mount_ok_state {st st' : StarletteBuilderState}
    {rb : StarletteRouteBuilder}
    (h : StarletteBuilderMount st rb = .ok st') :
    st'.mounts = st.mounts ++ [⟨getPathFromUrl rb.agent_card.url, rb.build⟩]
      ∧ st'.catalog_links = st.catalog_links ++ [expectedLink rb] := by
  unfold StarletteBuilderMount at h
  cases h1 : (st.mounts.any fun m =>
      PyLib.normpath m.path
        = PyLib.normpath (getPathFromUrl rb.agent_card.url)) with
  | true => simp [h1] at h
  | false =>
      simp only [h1, Bool.false_eq_true, if_false] at h
      cases h2 : (rb.extended_agent_card.any
          fun ec => rb.agent_card.url ≠ ec.url) with
      | true =>
          rw [if_pos h2] at h
          cases h
      | false =>
          simp only [h2, Bool.false_eq_true, if_false] at h
          cases h
          refine ⟨rfl, ?_⟩
          simp only [expectedLink]
          cases hec : rb.extended_agent_card with
          | none => simp [hec]
          | some ec =>
              have hurl : rb.agent_card.url = ec.url := by
                rw [hec] at h2
                simpa [Option.any] using h2
              cases hflag :
                  rb.agent_card.supports_authenticated_extended_card <;>
                simp [hec, hflag, hurl]

theorem mountAll_links (rbs : List StarletteRouteBuilder) :
    ∀ st st', mountAll st rbs = .ok st' →
      st'.catalog_links = st.catalog_links ++ rbs.map expectedLink := by
  induction rbs with
  | nil =>
      intro st st' h
      cases h
      simp
  | cons rb rest ih =>
      intro st st' h
      unfold mountAll at h
      cases hm : StarletteBuilderMount st rb with
      | error e => rw [hm] at h; cases h
      | ok st1 =>
          rw [hm] at h
          have h2 := ih st1 st' h
          rw [h2, (mount_ok_state hm).2]
          simp

/-- C6: the route list built by `A2AStarletteApplication.routes` with
the default paths contains no route for the deprecated alias path, so a
GET on the alias path of an app built from the default configuration is
answered 404, for every agent card. The repository tests expect the
alias to serve the card with status 200 at the default location. -/
theorem claim_C6_deprecated_alias_not_served (card : AgentCard) :
    (∀ r ∈ a2aStarletteApplicationRoutes card,
        r.path ≠ PREV_AGENT_CARD_WELL_KNOWN_PATH)
      ∧ matchRequest "GET" PREV_AGENT_CARD_WELL_KNOWN_PATH
          (a2aStarletteApplicationRoutes card) = 404 := by
  cases hflag : card.supports_authenticated_extended_card <;>
    simp [a2aStarletteApplicationRoutes, hflag, matchRequest,
      AGENT_CARD_WELL_KNOWN_PATH, PREV_AGENT_CARD_WELL_KNOWN_PATH,
      DEFAULT_RPC_URL, EXTENDED_AGENT_CARD_PATH]

/-- C7: the constructor of `A2AStarletteApplication` declares no
`card_modifier` or `extended_card_modifier` parameter, so configuring
either modifier, as the repository tests do, raises TypeError and the
modifier can never reach the card-serving endpoints. -/
theorem claim_C7_modifier_rejected :
    (∃ e, a2aStarletteApplicationInitCall
        ["agent_card", "http_handler", "card_modifier"] = .error e)
      ∧ (∃ e, a2aStarletteApplicationInitCall
          ["agent_card", "http_handler", "extended_agent_card",
           "extended_card_modifier"] = .error e) :=
  ⟨⟨_, rfl⟩, ⟨_, rfl⟩⟩

/-- C8: after successfully mounting a list of route builders, the
catalog served at the well-known api-catalog path has exactly one
linkset entry per builder, in mount order, whose anchor is the agent
card URL joined with the rpc path and whose describedby list holds the
joined agent-card path, plus the joined extended-card path exactly when
an extended card is provided and the card flag is set. -/
theorem claim_C8_api_catalog (rbs : List StarletteRouteBuilder)
    (st : StarletteBuilderState) (h : mountAll {} rbs = .ok st) :
    (handleGetApiCatalog st).linkset.length = rbs.length
      ∧ (handleGetApiCatalog st).linkset = rbs.map expectedLink := by
  have hl := mountAll_links rbs {} st h
  simp only [handleGetApiCatalog]
  constructor
  · rw [hl]; simp
  · rw [hl]; simp

/-- Witness for C8 at the single builder of the builder tests. -/
theorem claim_C8_witness :
    mountAll {} [testRouteBuilder] = .ok testBuilderState
    ∧ (handleGetApiCatalog testBuilderState).linkset.length = 1
    ∧ (handleGetApiCatalog testBuilderState).linkset
      = [testRouteBuilder].map expectedLink :=
  ⟨rfl,
   (claim_C8_api_catalog [testRouteBuilder] testBuilderState rfl).1,
   (claim_C8_api_catalog [testRouteBuilder] testBuilderState rfl).2⟩

/-- C10: the route lists of `A2AStarletteApplication.routes` and
`StarletteRouteBuilder.build` contain the authenticated extended card
route exactly when the card flag is set; with the flag cleared they are
exactly the POST rpc route and the GET agent-card route, and a GET on a
distinct extended-card path is answered 404. -/
theorem claim_C10_extended_route (card : AgentCard)
    (config : StarletteRouteConfig) (ext : Option AgentCard)
    (acu ru eu : String) :
    ((a2aStarletteApplicationRoutes card acu ru eu).any
        (fun r => r.handler = .handleGetAuthenticatedExtendedAgentCard)
      = card.supports_authenticated_extended_card)
    ∧ ((StarletteRouteBuilder.build ⟨card, ext, config⟩).any
        (fun r => r.handler = .handleGetAuthenticatedExtendedAgentCard)
      = card.supports_authenticated_extended_card)
    ∧ (card.supports_authenticated_extended_card = false →
        a2aStarletteApplicationRoutes card acu ru eu
          = [⟨ru, ["POST"], .handleRequests, "a2a_handler"⟩,
             ⟨acu, ["GET"], .handleGetAgentCard, "agent_card"⟩]
        ∧ StarletteRouteBuilder.build ⟨card, ext, config⟩
          = [⟨config.rpc_path, ["POST"], .handleRequests, "a2a_handler"⟩,
             ⟨config.agent_card_path, ["GET"], .handleGetAgentCard,
              "agent_card"⟩])
    ∧ (card.supports_authenticated_extended_card = false →
        eu ≠ ru → eu ≠ acu →
        matchRequest "GET" eu (a2aStarletteApplicationRoutes card acu ru eu)
          = 404)
    ∧ (card.supports_authenticated_extended_card = false →
        config.extended_agent_card_path ≠ config.rpc_path →
        config.extended_agent_card_path ≠ config.agent_card_path →
        matchRequest "GET" config.extended_agent_card_path
          (StarletteRouteBuilder.build ⟨card, ext, config⟩) = 404) := by
  refine ⟨?_, ?_, ?_, ?_, ?_⟩
  · cases hflag : card.supports_authenticated_extended_card <;>
      simp [a2aStarletteApplicationRoutes, hflag]
  · cases hflag : card.supports_authenticated_extended_card <;>
      simp [StarletteRouteBuilder.build, hflag]
  · intro hflag
    simp [a2aStarletteApplicationRoutes, StarletteRouteBuilder.build, hflag]
  · intro hflag h1 h2
    simp [a2aStarletteApplicationRoutes, hflag, matchRequest,
      Ne.symm h1, Ne.symm h2]
  · intro hflag h1 h2
    simp [StarletteRouteBuilder.build, hflag, matchRequest,
      Ne.symm h1, Ne.symm h2]

/-- Witness for C10 at the test agent card, with the default paths. -/
theorem claim_C10_witness :
    matchRequest "GET" EXTENDED_AGENT_CARD_PATH
      (a2aStarletteApplicationRoutes testAgentCard) = 404
    ∧ (StarletteRouteBuilder.build ⟨testAgentCard, none, {}⟩).any
        (fun r => r.handler = .handleGetAuthenticatedExtendedAgentCard)
      = false :=
  ⟨(claim_C10_extended_route testAgentCard {} none
      AGENT_CARD_WELL_KNOWN_PATH DEFAULT_RPC_URL
      EXTENDED_AGENT_CARD_PATH).2.2.2.1 rfl (by decide) (by decide),
   by
    rw [(claim_C10_extended_route testAgentCard {} none
      AGENT_CARD_WELL_KNOWN_PATH DEFAULT_RPC_URL
      EXTENDED_AGENT_CARD_PATH).2.1]
    rfl⟩

end A2A
